import Mathlib

/-!
Shallow embedding of the NexCRM server core (src/shared/schema.ts,
src/server/storage.ts, src/server/routes.ts).

Conventions of the embedding:
* Postgres rows become Lean structures; `serial` ids and JS numbers used as
  ids are modelled as `Int` (JS numbers are used only integrally here).
* Timestamps are `Nat` milliseconds since epoch, mirroring `Date.getTime()`;
  `toISOString().split('T')[0]` day extraction becomes `toDay` (ms / 86400000),
  and the server clock is passed in as an explicit `nowDay` / `now` argument.
* JSON request-body values are `JVal` (string / number / null), each field
  wrapped in `Option` for presence, so zod validation failures are expressible.
* SQL `ORDER BY created_at DESC` is modelled by `List.insertionSort` with the
  relation `descBy createdAt`; `LEFT JOIN users` becomes an `Option User`
  lookup by id.
* Every store/route operation is a pure function from the database value (and
  request data) to its result; route handlers return a `RouteOut` bundling the
  HTTP response, the optional WebSocket broadcast event, and the new database.
-/

/-- A row of the `users` table (schema.ts). -/
structure User where
  id : Int
  username : String
  password : String
  email : String
  fullName : String
  role : String
  createdAt : Nat
deriving DecidableEq, Repr

/-- A row of the `leads` table (schema.ts). `phone` and `value` are nullable. -/
structure Lead where
  id : Int
  companyName : String
  contactName : String
  email : String
  phone : Option String
  status : String
  source : String
  value : Option Int
  ownerId : Int
  createdAt : Nat
  updatedAt : Nat
deriving DecidableEq, Repr

/-- A row of the `activities` table (schema.ts). `leadId` carries
`onDelete: 'cascade'` toward `leads.id`. -/
structure Activity where
  id : Int
  leadId : Int
  userId : Int
  type : String
  subject : String
  notes : Option String
  createdAt : Nat
deriving DecidableEq, Repr

/-- The persistent store: the three tables. -/
structure DB where
  users : List User
  leads : List Lead
  activities : List Activity
deriving DecidableEq, Repr

/-- Descending order by a `Nat` key: models SQL `ORDER BY key DESC`. -/
def descBy {α : Type} (f : α → Nat) (a b : α) : Prop := f b ≤ f a

instance {α : Type} (f : α → Nat) : DecidableRel (descBy f) :=
  fun a b => inferInstanceAs (Decidable (f b ≤ f a))

instance {α : Type} (f : α → Nat) : IsTotal α (descBy f) :=
  ⟨fun a b => Nat.le_total (f b) (f a)⟩

instance {α : Type} (f : α → Nat) : IsTrans α (descBy f) :=
  ⟨fun _ _ _ h1 h2 => Nat.le_trans h2 h1⟩

/-- Models `SELECT * FROM users WHERE id = uid` (first row): the left-join target. -/
def findUser (db : DB) (uid : Int) : Option User :=
  db.users.find? (fun u => u.id == uid)

/-- JS truthiness of the optional `userId` argument of the storage reads:
`undefined` and `0` are falsy, every other number is truthy. -/
def truthyId : Option Int → Bool
  | none => false
  | some n => n != 0

/-- day number of a millisecond timestamp, as `toISOString().split('T')[0]`
identifies a UTC calendar day. -/
def toDay (t : Nat) : Nat := t / 86400000

/-- A lead row joined with its owner (`leftJoin(users, eq(leads.ownerId, users.id))`). -/
structure LeadWithOwner where
  lead : Lead
  owner : Option User
deriving DecidableEq, Repr

def joinOwner (db : DB) (l : Lead) : LeadWithOwner :=
  ⟨l, findUser db l.ownerId⟩

/-- Models `DatabaseStorage.getAllLeads` (storage.ts lines 82-107): select leads joined
with owners, ordered by `createdAt` descending; the ownership `WHERE` clause is
added only when `role === "sales_executive" && userId` is truthy. -/
def getAllLeads (db : DB) (userId : Option Int) (role : Option String) : List LeadWithOwner :=
  let base :=
    if role == some "sales_executive" && truthyId userId then
      db.leads.filter (fun l => some l.ownerId == userId)
    else
      db.leads
  (base.insertionSort (descBy Lead.createdAt)).map (joinOwner db)

/-- Models `getLeadById`'s result shape: lead ⋈ owner ⋈ activities[⋈ author]. -/
structure LeadWithDetails where
  lead : Lead
  owner : Option User
  activities : List (Activity × Option User)
deriving DecidableEq, Repr

/-- Models `DatabaseStorage.getLeadById` (storage.ts lines 109-151). -/
def getLeadById (db : DB) (id : Int) : Option LeadWithDetails :=
  match db.leads.find? (fun l => l.id == id) with
  | none => none
  | some l =>
      some ⟨l, findUser db l.ownerId,
        ((db.activities.filter (fun a => a.leadId == id)).insertionSort
            (descBy Activity.createdAt)).map (fun a => (a, findUser db a.userId))⟩

/-- Models `DatabaseStorage.deleteLead` (storage.ts lines 170-172): a single SQL
`DELETE FROM leads WHERE id = ?`; the removal of the referencing activities is
the `onDelete: 'cascade'` declared on `activities.leadId` (schema.ts line 33),
executed by the database inside the same statement. -/
def deleteLead (db : DB) (id : Int) : DB :=
  { db with
    leads := db.leads.filter (fun l => !(l.id == id)),
    activities := db.activities.filter (fun a => !(a.leadId == id)) }

/-- Models `DatabaseStorage.getAllUsers` (storage.ts lines 78-80). -/
def getAllUsers (db : DB) : List User :=
  db.users.insertionSort (descBy User.createdAt)

/-- Models `DatabaseStorage.getActivitiesByLeadId` (storage.ts lines 182-200). -/
def getActivitiesByLeadId (db : DB) (leadId : Int) : List (Activity × Option User) :=
  ((db.activities.filter (fun a => a.leadId == leadId)).insertionSort
      (descBy Activity.createdAt)).map (fun a => (a, findUser db a.userId))

/-! ### JSON values and zod schema validation (drizzle-zod insert schemas) -/

/-- A JSON scalar as it may arrive in a request body. -/
inductive JVal where
  | jnull : JVal
  | jstr : String → JVal
  | jnum : Int → JVal
deriving DecidableEq, Repr

/-- zod: required non-nullable string column. -/
def zReqStr : Option JVal → Option String
  | some (JVal.jstr s) => some s
  | _ => none

/-- zod: required non-nullable integer column. -/
def zReqNum : Option JVal → Option Int
  | some (JVal.jnum n) => some n
  | _ => none

/-- zod: optional (column has a default) non-nullable string. -/
def zOptStr : Option JVal → Option (Option String)
  | none => some none
  | some (JVal.jstr s) => some (some s)
  | _ => none

/-- zod: optional nullable string column (e.g. `phone`); absent and `null`
both end up as SQL NULL. -/
def zOptNullStr : Option JVal → Option (Option String)
  | none => some none
  | some JVal.jnull => some none
  | some (JVal.jstr s) => some (some s)
  | _ => none

/-- zod: optional nullable integer column (e.g. `value`). -/
def zOptNullNum : Option JVal → Option (Option Int)
  | none => some none
  | some JVal.jnull => some none
  | some (JVal.jnum n) => some (some n)
  | _ => none

/-- zod partial: required string column after `.partial()`: may be absent. -/
def zPartStr : Option JVal → Option (Option String)
  | none => some none
  | some (JVal.jstr s) => some (some s)
  | _ => none

/-- zod partial: required integer column after `.partial()`. -/
def zPartNum : Option JVal → Option (Option Int)
  | none => some none
  | some (JVal.jnum n) => some (some n)
  | _ => none

/-- zod partial: nullable string column after `.partial()`; outer Option is
presence in the patch, inner is NULL vs a string. -/
def zPartNullStr : Option JVal → Option (Option (Option String))
  | none => some none
  | some JVal.jnull => some (some none)
  | some (JVal.jstr s) => some (some (some s))
  | _ => none

/-- zod partial: nullable integer column after `.partial()`. -/
def zPartNullNum : Option JVal → Option (Option (Option Int))
  | none => some none
  | some JVal.jnull => some (some none)
  | some (JVal.jnum n) => some (some (some n))
  | _ => none

/-- The JSON body of a lead create/update request: each `leads` column that
`insertLeadSchema` accepts, by presence. -/
structure LeadBody where
  companyName : Option JVal
  contactName : Option JVal
  email : Option JVal
  phone : Option JVal
  status : Option JVal
  source : Option JVal
  value : Option JVal
  ownerId : Option JVal
deriving DecidableEq, Repr

/-- A value of `insertLeadSchema` (schema.ts lines 73-77): required
companyName/contactName/email/source/ownerId; `status` optional (DB default
"new"); `phone`/`value` optional nullable. -/
structure InsertLead where
  companyName : String
  contactName : String
  email : String
  phone : Option String
  status : Option String
  source : String
  value : Option Int
  ownerId : Int
deriving DecidableEq, Repr

/-- Models `insertLeadSchema.parse` on a request body. -/
def parseInsertLead (b : LeadBody) : Option InsertLead :=
  match zReqStr b.companyName, zReqStr b.contactName, zReqStr b.email,
      zOptNullStr b.phone, zOptStr b.status, zReqStr b.source,
      zOptNullNum b.value, zReqNum b.ownerId with
  | some cn, some ct, some em, some ph, some st, some src, some v, some oid =>
      some ⟨cn, ct, em, ph, st, src, v, oid⟩
  | _, _, _, _, _, _, _, _ => none

/-- A value of `insertLeadSchema.partial()`: every column optional. -/
structure LeadPatch where
  companyName : Option String
  contactName : Option String
  email : Option String
  phone : Option (Option String)
  status : Option String
  source : Option String
  value : Option (Option Int)
  ownerId : Option Int
deriving DecidableEq, Repr

/-- Models `insertLeadSchema.partial().parse` on a request body. -/
def parseLeadPatch (b : LeadBody) : Option LeadPatch :=
  match zPartStr b.companyName, zPartStr b.contactName, zPartStr b.email,
      zPartNullStr b.phone, zPartStr b.status, zPartStr b.source,
      zPartNullNum b.value, zPartNum b.ownerId with
  | some cn, some ct, some em, some ph, some st, some src, some v, some oid =>
      some ⟨cn, ct, em, ph, st, src, v, oid⟩
  | _, _, _, _, _, _, _, _ => none

/-- Models `db.insert(leads).values(v).returning()` (storage.ts createLead): the row
the database materialises, with serial id and timestamp defaults. -/
def mkLead (newId : Int) (v : InsertLead) (now : Nat) : Lead :=
  ⟨newId, v.companyName, v.contactName, v.email, v.phone, v.status.getD "new",
    v.source, v.value, v.ownerId, now, now⟩

/-- Models `DatabaseStorage.createLead` (storage.ts lines 153-159). -/
def createLead (db : DB) (v : InsertLead) (newId : Int) (now : Nat) : Lead × DB :=
  let l := mkLead newId v now
  (l, { db with leads := db.leads ++ [l] })

/-- Models `{...existing, ...updateData, updatedAt: now}`: the SQL `UPDATE ... SET`
built by `DatabaseStorage.updateLead` (storage.ts lines 161-168). -/
def applyPatch (l : Lead) (p : LeadPatch) (now : Nat) : Lead :=
  { l with
    companyName := p.companyName.getD l.companyName,
    contactName := p.contactName.getD l.contactName,
    email := p.email.getD l.email,
    phone := p.phone.getD l.phone,
    status := p.status.getD l.status,
    source := p.source.getD l.source,
    value := p.value.getD l.value,
    ownerId := p.ownerId.getD l.ownerId,
    updatedAt := now }

/-- Models `DatabaseStorage.updateLead`: updates the matching row, returns it (or
`none` when the id does not exist) together with the new store. -/
def updateLead (db : DB) (id : Int) (p : LeadPatch) (now : Nat) : Option Lead × DB :=
  let newLeads := db.leads.map (fun l => if l.id == id then applyPatch l p now else l)
  (newLeads.find? (fun l => l.id == id), { db with leads := newLeads })

/-! ### Aggregation: getStats and getAnalytics -/

/-- Insertion-ordered distinct keys: models building a JS object by
`reduce` and reading it back with `Object.entries`. -/
def firstOccurrences (xs : List String) : List String :=
  xs.foldl (fun acc s => if acc.contains s then acc else acc ++ [s]) []

/-- Group-count of a list of leads by a string key, in first-occurrence order. -/
def countsBy (f : Lead → String) (ls : List Lead) : List (String × Nat) :=
  (firstOccurrences (ls.map f)).map (fun s => (s, (ls.filter (fun l => f l == s)).length))

/-- The trailing 7 UTC calendar days ending today (storage.ts lines 236-240):
`i`-th entry is `nowDay - (6 - i)`, so chronological ending at `nowDay`. -/
def last7Days (nowDay : Nat) : List Nat :=
  (List.range 7).map (fun i => nowDay - (6 - i))

/-- The result record of `getStats`; `recentActivity` keeps day numbers. -/
structure Stats where
  totalLeads : Nat
  activeLeads : Nat
  convertedLeads : Nat
  totalValue : Int
  leadsByStatus : List (String × Nat)
  leadsBySource : List (String × Nat)
  recentActivity : List (Nat × Nat)
deriving DecidableEq, Repr

/-- Models `DatabaseStorage.getStats` (storage.ts lines 202-261). The leads query gets
the ownership `WHERE` clause under the same truthiness condition as
`getAllLeads`; the activities query (storage.ts lines 242-243) has no filter at
all. `nowDay` is the server's current UTC day. -/
def getStats (db : DB) (userId : Option Int) (role : Option String) (nowDay : Nat) : Stats :=
  let allLeads :=
    if role == some "sales_executive" && truthyId userId then
      db.leads.filter (fun l => some l.ownerId == userId)
    else
      db.leads
  let allActivities := db.activities
  { totalLeads := allLeads.length,
    activeLeads := (allLeads.filter (fun l => !(l.status == "won" || l.status == "lost"))).length,
    convertedLeads := (allLeads.filter (fun l => l.status == "won")).length,
    totalValue := allLeads.foldl (fun s l => s + l.value.getD 0) 0,
    leadsByStatus := countsBy (fun l => l.status) allLeads,
    leadsBySource := countsBy (fun l => l.source) allLeads,
    recentActivity := (last7Days nowDay).map (fun d =>
      (d, (allActivities.filter (fun a => toDay a.createdAt == d)).length)) }

/-- Models `status.charAt(0).toUpperCase() + status.slice(1)`. -/
def capitalize (s : String) : String :=
  match s.toList with
  | [] => s
  | c :: cs => String.mk (c.toUpper :: cs)

/-- The result record of `getAnalytics`. Ratios and means are exact rationals;
`leadTrend` months are abstract month numbers (the `toLocaleDateString` label
is presentation only). -/
structure Analytics where
  conversionRate : ℚ
  avgDealSize : ℚ
  avgTimeToClose : ℚ
  leadTrend : List (Nat × Nat × Nat)
  performanceByUser : List (String × Nat × Nat × Int)
  statusDistribution : List (String × Nat × ℚ)
deriving DecidableEq, Repr

/-- Models `DatabaseStorage.getAnalytics` (storage.ts lines 263-338). Calendar month
extraction from a timestamp is abstracted by the parameter `monthOf`, and the
current month by `nowMonth` (the JS code derives both from `Date`); everything
else follows the source. -/
def getAnalytics (db : DB) (userId : Option Int) (role : Option String)
    (monthOf : Nat → Nat) (nowMonth : Nat) : Analytics :=
  let allLeads :=
    if role == some "sales_executive" && truthyId userId then
      db.leads.filter (fun l => some l.ownerId == userId)
    else
      db.leads
  let wonLeads := allLeads.filter (fun l => l.status == "won")
  let totalLeads := allLeads.length
  let conversionRate : ℚ :=
    if 0 < totalLeads then ((wonLeads.length : ℚ) / (totalLeads : ℚ)) * 100 else 0
  let avgDealSize : ℚ :=
    if 0 < wonLeads.length then
      ((wonLeads.foldl (fun s l => s + l.value.getD 0) 0 : Int) : ℚ) / (wonLeads.length : ℚ)
    else 0
  let timesToClose : List ℚ :=
    wonLeads.map (fun l => ((l.updatedAt : ℚ) - (l.createdAt : ℚ)) / 86400000)
  let avgTimeToClose : ℚ :=
    if 0 < timesToClose.length then
      (timesToClose.foldl (fun s t => s + t) 0) / (timesToClose.length : ℚ)
    else 0
  let last6Months := (List.range 6).map (fun i => nowMonth - (5 - i))
  let leadTrend := last6Months.map (fun m =>
    let monthLeads := allLeads.filter (fun l => monthOf l.createdAt == m)
    (m, monthLeads.length, (monthLeads.filter (fun l => l.status == "won")).length))
  let performanceByUser :=
    (db.users.map (fun u =>
      let userLeads := allLeads.filter (fun l => l.ownerId == u.id)
      let userWon := userLeads.filter (fun l => l.status == "won")
      (u.fullName, userLeads.length, userWon.length,
        userWon.foldl (fun s l => s + l.value.getD 0) 0))).filter
      (fun p => 0 < p.2.1)
  let statusDistribution := (countsBy (fun l => l.status) allLeads).map (fun p =>
    (capitalize p.1, p.2,
      if 0 < totalLeads then ((p.2 : ℚ) / (totalLeads : ℚ)) * 100 else 0))
  ⟨conversionRate, avgDealSize, avgTimeToClose, leadTrend, performanceByUser,
    statusDistribution⟩

/-! ### Sanitization and broadcast events (routes.ts) -/

/-- A user object after `sanitizeUser`: every column except `password`. -/
structure SanUser where
  id : Int
  username : String
  email : String
  fullName : String
  role : String
  createdAt : Nat
deriving DecidableEq, Repr

/-- The destructuring `const { password, ...sanitized } = user`. -/
def stripPassword (u : User) : SanUser :=
  ⟨u.id, u.username, u.email, u.fullName, u.role, u.createdAt⟩

/-- Models `sanitizeUser` (routes.ts lines 49-53): a falsy (absent) user is returned
unchanged, otherwise the password key is dropped. -/
def sanitizeUser : Option User → Option SanUser
  | none => none
  | some u => some (stripPassword u)

/-- A lead detail after `sanitizeLead`: owner and activity authors stripped. -/
structure SanLeadDetails where
  lead : Lead
  owner : Option SanUser
  activities : List (Activity × Option SanUser)
deriving DecidableEq, Repr

/-- Models `sanitizeLead` applied to a `getLeadById` result. -/
def sanitizeDetail (d : LeadWithDetails) : SanLeadDetails :=
  ⟨d.lead, sanitizeUser d.owner, d.activities.map (fun p => (p.1, sanitizeUser p.2))⟩

/-- A `getAllLeads` row after `sanitizeLead` (its `activities` key is absent,
so only the owner is affected). -/
structure SanLeadWithOwner where
  lead : Lead
  owner : Option SanUser
deriving DecidableEq, Repr

def sanitizeRow (r : LeadWithOwner) : SanLeadWithOwner :=
  ⟨r.lead, sanitizeUser r.owner⟩

/-- The payloads carried in the `data` field of broadcast envelopes.
`sanLead lead owner acts` is `sanitizeLead` output: for a bare created row both
`owner` and `activities` are absent. `rawLead` is the unsanitized fallback
`: lead` branch of the `lead_updated` broadcast. -/
inductive EventData where
  | sanLead : Lead → Option SanUser → Option (List (Activity × Option SanUser)) → EventData
  | rawLead : Option Lead → EventData
  | idOnly : Int → EventData
  | activityWithUser : Activity → Option SanUser → EventData
deriving DecidableEq, Repr

/-- A broadcast envelope `{type, data}` handed to `broadcastToClients`. -/
structure Event where
  type : String
  data : EventData
deriving DecidableEq, Repr

/-! ### Route handlers (routes.ts) -/

/-- What a handler run produces: the HTTP response, the broadcast (if the
mutation succeeded), and the store afterwards. -/
structure RouteOut (ρ : Type) where
  resp : ρ
  event : Option Event
  db : DB
deriving DecidableEq, Repr

inductive UsersResp where
  | unauthorized | forbidden | serverError
  | ok : List SanUser → UsersResp
deriving DecidableEq, Repr

/-- Models `GET /api/users` (routes.ts lines 40-47), behind `requireRole("admin")`;
the handler strips `password` from every row. -/
def getUsersRoute (db : DB) (auth : Bool) (caller : User) : UsersResp :=
  if !auth then .unauthorized
  else if !(["admin"].contains caller.role) then .forbidden
  else .ok ((getAllUsers db).map stripPassword)

inductive LeadsResp where
  | unauthorized
  | ok : List SanLeadWithOwner → LeadsResp
deriving DecidableEq, Repr

/-- Models `GET /api/leads` (routes.ts lines 66-73). -/
def getLeadsRoute (db : DB) (auth : Bool) (caller : User) : LeadsResp :=
  if !auth then .unauthorized
  else .ok ((getAllLeads db (some caller.id) (some caller.role)).map sanitizeRow)

inductive LeadDetailResp where
  | unauthorized | notFound | forbidden
  | ok : SanLeadDetails → LeadDetailResp
deriving DecidableEq, Repr

/-- Models `GET /api/leads/:id` (routes.ts lines 75-92). -/
def getLeadRoute (db : DB) (auth : Bool) (caller : User) (id : Int) : LeadDetailResp :=
  if !auth then .unauthorized
  else
    match getLeadById db id with
    | none => .notFound
    | some d =>
        if caller.role == "sales_executive" && d.lead.ownerId != caller.id then .forbidden
        else .ok (sanitizeDetail d)

inductive PostLeadResp where
  | unauthorized | badRequest
  | created : Lead → PostLeadResp
deriving DecidableEq, Repr

/-- Models `POST /api/leads` (routes.ts lines 94-112): for a sales_executive caller
the body's `ownerId` is overwritten with the caller's id before validation;
on success the bare created row is broadcast through `sanitizeLead` (no owner
is joined) and returned with status 201. -/
def postLead (db : DB) (auth : Bool) (caller : User) (body : LeadBody)
    (newId : Int) (now : Nat) : RouteOut PostLeadResp :=
  if !auth then ⟨.unauthorized, none, db⟩
  else
    let dataToValidate :=
      if caller.role == "sales_executive" then
        { body with ownerId := some (JVal.jnum caller.id) }
      else body
    match parseInsertLead dataToValidate with
    | none => ⟨.badRequest, none, db⟩
    | some v =>
        let r := createLead db v newId now
        ⟨.created r.1, some ⟨"lead_created", .sanLead r.1 none none⟩, r.2⟩

inductive PutLeadResp where
  | unauthorized | badRequest | notFound | forbidden
  | ok : Option Lead → PutLeadResp
deriving DecidableEq, Repr

/-- Models `PUT /api/leads/:id` (routes.ts lines 114-137): body validation runs first
(a zod failure throws into the catch → 400 before any storage access), then
existence (404), then ownership for sales_executive (403), then the write; the
broadcast re-fetches the updated lead with details and sanitizes it, falling
back to the raw row if the re-fetch finds nothing. -/
def putLead (db : DB) (auth : Bool) (caller : User) (id : Int) (body : LeadBody)
    (now : Nat) : RouteOut PutLeadResp :=
  if !auth then ⟨.unauthorized, none, db⟩
  else
    match parseLeadPatch body with
    | none => ⟨.badRequest, none, db⟩
    | some p =>
        match getLeadById db id with
        | none => ⟨.notFound, none, db⟩
        | some d =>
            if caller.role == "sales_executive" && d.lead.ownerId != caller.id then
              ⟨.forbidden, none, db⟩
            else
              let r := updateLead db id p now
              let ev : Event :=
                match getLeadById r.2 id with
                | some d2 => ⟨"lead_updated",
                    .sanLead d2.lead (sanitizeUser d2.owner)
                      (some (d2.activities.map (fun q => (q.1, sanitizeUser q.2))))⟩
                | none => ⟨"lead_updated", .rawLead r.1⟩
              ⟨.ok r.1, some ev, r.2⟩

inductive DelResp where
  | unauthorized | forbidden | notFound | noContent
deriving DecidableEq, Repr

/-- Models `DELETE /api/leads/:id` (routes.ts lines 139-156): the
`requireRole("admin", "manager")` middleware rejects every other role before
the handler body runs, so its 403 precedes the existence check. -/
def deleteLeadRoute (db : DB) (auth : Bool) (caller : User) (id : Int) : RouteOut DelResp :=
  if !auth then ⟨.unauthorized, none, db⟩
  else if !(["admin", "manager"].contains caller.role) then ⟨.forbidden, none, db⟩
  else
    match getLeadById db id with
    | none => ⟨.notFound, none, db⟩
    | some _ => ⟨.noContent, some ⟨"lead_deleted", .idOnly id⟩, deleteLead db id⟩

/-- The JSON body of `POST /api/activities`. `leadId` models the result of
`parseInt(req.body.leadId)` (`none` = NaN: absent or non-numeric). -/
structure ActivityBody where
  leadId : Option Int
  type : Option JVal
  subject : Option JVal
  notes : Option JVal
deriving DecidableEq, Repr

/-- A value of `insertActivitySchema` (schema.ts lines 79-82). -/
structure InsertActivity where
  leadId : Int
  userId : Int
  type : String
  subject : String
  notes : Option String
deriving DecidableEq, Repr

/-- Models `insertActivitySchema.parse({...req.body, userId: callerId})`. -/
def parseInsertActivity (b : ActivityBody) (callerId : Int) : Option InsertActivity :=
  match b.leadId, zReqStr b.type, zReqStr b.subject, zOptNullStr b.notes with
  | some lid, some t, some s, some n => some ⟨lid, callerId, t, s, n⟩
  | _, _, _, _ => none

inductive ActResp where
  | unauthorized | notFound | forbidden | badRequest
  | created : Activity → ActResp
deriving DecidableEq, Repr

/-- Models `POST /api/activities` (routes.ts lines 158-184): lead existence (404),
then ownership for sales_executive (403), then validation with `userId` forced
to the caller (400), then the insert; the broadcast carries the created
activity plus the sanitized acting user. -/
def postActivity (db : DB) (auth : Bool) (caller : User) (body : ActivityBody)
    (newId : Int) (now : Nat) : RouteOut ActResp :=
  if !auth then ⟨.unauthorized, none, db⟩
  else
    match body.leadId with
    | none => ⟨.notFound, none, db⟩
    | some lid =>
        match getLeadById db lid with
        | none => ⟨.notFound, none, db⟩
        | some d =>
            if caller.role == "sales_executive" && d.lead.ownerId != caller.id then
              ⟨.forbidden, none, db⟩
            else
              match parseInsertActivity body caller.id with
              | none => ⟨.badRequest, none, db⟩
              | some v =>
                  let a : Activity := ⟨newId, v.leadId, v.userId, v.type, v.subject, v.notes, now⟩
                  ⟨.created a,
                    some ⟨"activity_created", .activityWithUser a (sanitizeUser (some caller))⟩,
                    { db with activities := db.activities ++ [a] }⟩

/-- Models `GET /api/stats` (routes.ts lines 186-193). -/
def getStatsRoute (db : DB) (auth : Bool) (caller : User) (nowDay : Nat) :
    Option Stats :=
  if !auth then none
  else some (getStats db (some caller.id) (some caller.role) nowDay)

inductive AnalyticsResp where
  | unauthorized | forbidden
  | ok : Analytics → AnalyticsResp
deriving DecidableEq, Repr

/-- Models `GET /api/analytics` (routes.ts lines 195-202), behind
`requireRole("admin", "manager")`. -/
def getAnalyticsRoute (db : DB) (auth : Bool) (caller : User)
    (monthOf : Nat → Nat) (nowMonth : Nat) : AnalyticsResp :=
  if !auth then .unauthorized
  else if !(["admin", "manager"].contains caller.role) then .forbidden
  else .ok (getAnalytics db (some caller.id) (some caller.role) monthOf nowMonth)

/-! ### Helper lemmas -/

/-- Rewrite every user's password by an arbitrary function: two stores related
this way agree on everything except credentials. -/
def pwSet (g : User → String) (u : User) : User := { u with password := g u }

def pwMap (g : User → String) (db : DB) : DB :=
  { db with users := db.users.map (pwSet g) }

theorem stripPassword_pwSet (g : User → String) (u : User) :
    stripPassword (pwSet g u) = stripPassword u := rfl

theorem sanitizeUser_pwSet (g : User → String) (u : Option User) :
    sanitizeUser (u.map (pwSet g)) = sanitizeUser u := by
  cases u <;> rfl

theorem findUser_pwMap (g : User → String) (db : DB) (i : Int) :
    findUser (pwMap g db) i = (findUser db i).map (pwSet g) := by
  unfold findUser pwMap
  rw [List.find?_map]
  rfl

theorem getAllUsers_pwMap (g : User → String) (db : DB) :
    getAllUsers (pwMap g db) = (getAllUsers db).map (pwSet g) := by
  unfold getAllUsers pwMap
  exact (List.map_insertionSort (descBy User.createdAt) (descBy User.createdAt)
    (pwSet g) db.users (fun a _ b _ => Iff.rfl)).symm

theorem getAllLeads_pwMap (g : User → String) (db : DB) (uid : Option Int)
    (role : Option String) :
    getAllLeads (pwMap g db) uid role
      = (getAllLeads db uid role).map (fun r => ⟨r.lead, r.owner.map (pwSet g)⟩) := by
  unfold getAllLeads
  have hl : (pwMap g db).leads = db.leads := rfl
  rw [hl]
  simp [joinOwner, findUser_pwMap, List.map_map, Function.comp]

theorem getLeadById_pwMap (g : User → String) (db : DB) (i : Int) :
    getLeadById (pwMap g db) i
      = (getLeadById db i).map (fun d =>
          ⟨d.lead, d.owner.map (pwSet g),
            d.activities.map (fun p => (p.1, p.2.map (pwSet g)))⟩) := by
  unfold getLeadById
  have hl : (pwMap g db).leads = db.leads := rfl
  have ha : (pwMap g db).activities = db.activities := rfl
  rw [hl, ha]
  cases hf : db.leads.find? (fun l => l.id == i) with
  | none => rfl
  | some l => simp [findUser_pwMap, List.map_map, Function.comp]

/-! ### Claim C1: role filter in getAllLeads -/

/-- A sales executive with id 5 owning the only lead in the store. -/
def u5 : User := ⟨5, "eve", "pw5", "eve@x", "Eve", "sales_executive", 100⟩

def leadOf5 : Lead := ⟨10, "Acme", "Bob", "bob@acme", none, "new", "web", none, 5, 50, 50⟩

def db1 : DB := ⟨[u5], [leadOf5], []⟩

/-- C1 as stated fails: calling `getAllLeads` with actingRole sales_executive
but actingUserId 0 (falsy) skips the ownership filter, so a lead whose ownerId
(5) differs from the acting user id (0) is returned. -/
theorem C1_counterexample :
    ((getAllLeads db1 (some 0) (some "sales_executive")).map (fun r => r.lead.ownerId)) = [5]
      ∧ (5 : Int) ≠ 0 :=
  ⟨rfl, by decide⟩

/-- C1 amended: when the acting role is sales_executive AND the acting user id
is present and nonzero, every returned lead is owned by that user; when the
role is anything else, or the id is falsy, the full joined lead set is
returned; in every case the result is ordered newest-first by creation time. -/
theorem C1_owner_filter_and_order :
    ∀ (db : DB) (uid : Option Int) (role : Option String) (u : Int),
      (role = some "sales_executive" → uid = some u → u ≠ 0 →
        ∀ r ∈ getAllLeads db uid role, r.lead.ownerId = u) ∧
      (role ≠ some "sales_executive" ∨ truthyId uid = false →
        getAllLeads db uid role
          = (db.leads.insertionSort (descBy Lead.createdAt)).map (joinOwner db)) ∧
      List.Pairwise (fun r1 r2 : LeadWithOwner => r2.lead.createdAt ≤ r1.lead.createdAt)
        (getAllLeads db uid role) := by
  intro db uid role u
  refine ⟨?_, ?_, ?_⟩
  · intro hrole huid hu r hr
    subst hrole huid
    have hc : ((some "sales_executive" : Option String) == some "sales_executive"
        && truthyId (some u)) = true := by
      simp [truthyId, hu]
    simp only [getAllLeads, hc, if_true] at hr
    rcases List.mem_map.mp hr with ⟨l, hl, rfl⟩
    have hl2 : l ∈ db.leads.filter (fun l => some l.ownerId == some u) :=
      (List.perm_insertionSort _ _).mem_iff.mp hl
    have := (List.mem_filter.mp hl2).2
    simpa [joinOwner] using this
  · intro h
    have hc : (role == some "sales_executive" && truthyId uid) = false := by
      rcases h with h | h
      · simp [h]
      · simp [h]
    simp only [getAllLeads, hc, Bool.false_eq_true, if_false]
  · have key : ∀ base : List Lead,
        List.Pairwise (fun r1 r2 : LeadWithOwner => r2.lead.createdAt ≤ r1.lead.createdAt)
          ((base.insertionSort (descBy Lead.createdAt)).map (joinOwner db)) := by
      intro base
      have hs : List.Sorted (descBy Lead.createdAt)
          (base.insertionSort (descBy Lead.createdAt)) :=
        List.sorted_insertionSort (descBy Lead.createdAt) base
      exact List.pairwise_map.mpr (hs.imp (fun h => h))
    by_cases hc : (role == some "sales_executive" && truthyId uid) = true
    · simp only [getAllLeads, hc, if_true]
      exact key _
    · simp only [getAllLeads, Bool.not_eq_true] at hc ⊢
      simp only [hc, Bool.false_eq_true, if_false]
      exact key _

/-- A second lead owned by a different user, to exercise the filter. -/
def leadOf7 : Lead := ⟨11, "Globex", "Ann", "ann@globex", none, "new", "ads", none, 7, 60, 60⟩

def db1w : DB := ⟨[u5], [leadOf5, leadOf7], []⟩

theorem C1_owner_filter_and_order_witness :
    (∀ r ∈ getAllLeads db1w (some 7) (some "sales_executive"), r.lead.ownerId = 7)
      ∧ getAllLeads db1w (some 7) (some "manager")
          = (db1w.leads.insertionSort (descBy Lead.createdAt)).map (joinOwner db1w) :=
  ⟨(C1_owner_filter_and_order db1w (some 7) (some "sales_executive") 7).1 rfl rfl
      (by decide),
    (C1_owner_filter_and_order db1w (some 7) (some "manager") 7).2.1
      (Or.inl (by decide))⟩

/-! ### Claim C2: sales_executive cannot choose a lead owner -/

theorem parseInsertLead_ownerId (b : LeadBody) (i : Int) (v : InsertLead)
    (h : parseInsertLead { b with ownerId := some (JVal.jnum i) } = some v) :
    v.ownerId = i := by
  unfold parseInsertLead at h
  split at h
  · next cn ct em ph st src vv oid hcn hct hem hph hst hsrc hv hoid =>
      simp only [zReqNum] at hoid
      cases h
      cases hoid
      rfl
  · exact absurd h (by simp)

/-- C2: for every POST /api/leads by a sales_executive, whatever `ownerId` the
body carries (or none at all), a successfully created lead's ownerId is the
caller's id, and the stored row agrees. -/
theorem C2_forced_owner :
    ∀ (db : DB) (auth : Bool) (caller : User) (body : LeadBody) (newId : Int)
      (now : Nat) (l : Lead),
      caller.role = "sales_executive" →
      (postLead db auth caller body newId now).resp = PostLeadResp.created l →
      l.ownerId = caller.id ∧ l ∈ (postLead db auth caller body newId now).db.leads := by
  intro db auth caller body newId now l hrole h
  unfold postLead at h ⊢
  cases auth with
  | false => simp at h
  | true =>
    simp only [Bool.not_true, Bool.false_eq_true, if_false] at h ⊢
    rw [hrole] at h ⊢
    simp only [beq_self_eq_true, if_true] at h ⊢
    cases hp : parseInsertLead { body with ownerId := some (JVal.jnum caller.id) } with
    | none =>
      rw [hp] at h
      exact absurd h (by simp)
    | some v =>
      rw [hp] at h
      simp only [createLead, PostLeadResp.created.injEq] at h
      subst h
      refine ⟨?_, ?_⟩
      · have := parseInsertLead_ownerId body caller.id v hp
        simpa [mkLead] using this
      · simp [createLead]

def bodyClaiming99 : LeadBody :=
  ⟨some (JVal.jstr "Acme"), some (JVal.jstr "Bob"), some (JVal.jstr "bob@acme"),
    none, none, some (JVal.jstr "web"), none, some (JVal.jnum 99)⟩

theorem C2_forced_owner_witness :
    (mkLead 1 ⟨"Acme", "Bob", "bob@acme", none, none, "web", none, 5⟩ 7).ownerId = (5 : Int)
      ∧ (mkLead 1 ⟨"Acme", "Bob", "bob@acme", none, none, "web", none, 5⟩ 7)
          ∈ (postLead db1 true u5 bodyClaiming99 1 7).db.leads :=
  C2_forced_owner db1 true u5 bodyClaiming99 1 7
    (mkLead 1 ⟨"Acme", "Bob", "bob@acme", none, none, "web", none, 5⟩ 7) rfl rfl

/-! ### Claim C3: cascade delete of activities, atomically -/

/-- C3: after a successful DELETE of lead `id`, no activity referencing `id`
and no lead with that id survives in the store (for any number of activities);
on any non-success outcome the store is unchanged. -/
theorem C3_cascade_delete :
    ∀ (db : DB) (auth : Bool) (caller : User) (id : Int),
      ((deleteLeadRoute db auth caller id).resp = DelResp.noContent →
        (∀ a ∈ (deleteLeadRoute db auth caller id).db.activities, a.leadId ≠ id) ∧
        (∀ l ∈ (deleteLeadRoute db auth caller id).db.leads, l.id ≠ id)) ∧
      ((deleteLeadRoute db auth caller id).resp ≠ DelResp.noContent →
        (deleteLeadRoute db auth caller id).db = db) := by
  intro db auth caller id
  unfold deleteLeadRoute
  cases auth with
  | false => exact ⟨fun h => by simp at h, fun _ => rfl⟩
  | true =>
    simp only [Bool.not_true, Bool.false_eq_true, if_false]
    by_cases hrole : (["admin", "manager"].contains caller.role) = true
    · simp only [hrole, Bool.not_true, Bool.false_eq_true, if_false]
      cases hf : getLeadById db id with
      | none => exact ⟨fun h => by simp at h, fun _ => rfl⟩
      | some d =>
        constructor
        · intro _
          constructor
          · intro a ha
            have := (List.mem_filter.mp ha).2
            simpa using this
          · intro l hl
            have := (List.mem_filter.mp hl).2
            simpa using this
        · intro h
          simp at h
    · simp only [Bool.not_eq_true] at hrole
      simp only [hrole, Bool.not_false, if_true]
      exact ⟨fun h => by simp at h, fun _ => trivial⟩

/-- Admin user and a lead with two activities for the C3 witness. -/
def adminA : User := ⟨1, "root", "pwa", "root@x", "Root", "admin", 10⟩

def leadD : Lead := ⟨20, "Del Co", "Carl", "c@d", none, "new", "web", none, 1, 30, 30⟩

def actD1 : Activity := ⟨1, 20, 1, "note", "first", none, 31⟩

def actD2 : Activity := ⟨2, 20, 1, "call", "second", none, 32⟩

def dbDel : DB := ⟨[adminA], [leadD], [actD1, actD2]⟩

theorem C3_cascade_delete_witness :
    (∀ a ∈ (deleteLeadRoute dbDel true adminA 20).db.activities, a.leadId ≠ 20) ∧
      (∀ l ∈ (deleteLeadRoute dbDel true adminA 20).db.leads, l.id ≠ 20) :=
  (C3_cascade_delete dbDel true adminA 20).1 rfl

/-! ### Claim C10: PUT validates its body before touching the store -/

/-- C10: when the partial body fails schema validation, PUT /api/leads/:id
answers 400 with no broadcast and an unchanged store, for every store —
in particular also when the target id does not exist, and without the result
depending on any read of the target. -/
theorem C10_put_validates_first :
    ∀ (db : DB) (caller : User) (id : Int) (body : LeadBody) (now : Nat),
      parseLeadPatch body = none →
      putLead db true caller id body now = ⟨PutLeadResp.badRequest, none, db⟩ := by
  intro db caller id body now h
  unfold putLead
  simp [h]

/-- A partial body whose companyName is a number: zod rejects it. -/
def badBody : LeadBody :=
  ⟨some (JVal.jnum 5), none, none, none, none, none, none, none⟩

theorem C10_put_validates_first_witness :
    putLead db1 true adminA 999 badBody 0 = ⟨PutLeadResp.badRequest, none, db1⟩ :=
  C10_put_validates_first db1 adminA 999 badBody 0 rfl

/-! ### Claim C5: 404/403 ordering across the three mutation routes -/

def seUser : User := ⟨3, "sal", "pw3", "sal@x", "Sal", "sales_executive", 5⟩

def dbEmpty : DB := ⟨[], [], []⟩

/-- C5 as stated fails: on DELETE /api/leads/:id the admin/manager role gate
runs before any lookup, so a sales_executive deleting a non-existent lead
gets 403, not 404. -/
theorem C5_counterexample :
    (deleteLeadRoute dbEmpty true seUser 99).resp = DelResp.forbidden
      ∧ getLeadById dbEmpty 99 = none :=
  ⟨rfl, rfl⟩

/-- C5 amended: for PUT /api/leads/:id with a body that passes validation and
for POST /api/activities with a numeric leadId, existence is checked first
(404) and only then sales_executive ownership (403); on DELETE /api/leads/:id
the admin/manager role gate precedes the existence check, so admin/manager get
404 on an absent lead while a sales_executive gets 403 regardless of
existence. -/
theorem C5_check_order :
    ∀ (db : DB) (caller : User) (id : Int) (body : LeadBody) (abody : ActivityBody)
      (newId : Int) (now : Nat) (p : LeadPatch) (d : LeadWithDetails) (lid : Int),
      (parseLeadPatch body = some p → getLeadById db id = none →
        (putLead db true caller id body now).resp = PutLeadResp.notFound) ∧
      (parseLeadPatch body = some p → getLeadById db id = some d →
        caller.role = "sales_executive" → d.lead.ownerId ≠ caller.id →
        (putLead db true caller id body now).resp = PutLeadResp.forbidden) ∧
      (abody.leadId = some lid → getLeadById db lid = none →
        (postActivity db true caller abody newId now).resp = ActResp.notFound) ∧
      (abody.leadId = some lid → getLeadById db lid = some d →
        caller.role = "sales_executive" → d.lead.ownerId ≠ caller.id →
        (postActivity db true caller abody newId now).resp = ActResp.forbidden) ∧
      ((caller.role = "admin" ∨ caller.role = "manager") → getLeadById db id = none →
        (deleteLeadRoute db true caller id).resp = DelResp.notFound) ∧
      (caller.role = "sales_executive" →
        (deleteLeadRoute db true caller id).resp = DelResp.forbidden) := by
  intro db caller id body abody newId now p d lid
  refine ⟨?_, ?_, ?_, ?_, ?_, ?_⟩
  · intro hp hf
    unfold putLead
    simp [hp, hf]
  · intro hp hf hrole hown
    unfold putLead
    simp [hp, hf, hrole, hown]
  · intro hl hf
    unfold postActivity
    simp [hl, hf]
  · intro hl hf hrole hown
    unfold postActivity
    simp [hl, hf, hrole, hown]
  · intro hr hf
    unfold deleteLeadRoute
    rcases hr with h | h <;> simp [h, hf]
  · intro h
    unfold deleteLeadRoute
    simp [h]

def leadOf2 : Lead := ⟨7, "OwnCo", "Oda", "o@x", none, "new", "web", none, 2, 40, 40⟩

def mgrUser : User := ⟨4, "mgr", "pw4", "m@x", "Meg", "manager", 6⟩

def dbC5 : DB := ⟨[seUser, mgrUser], [leadOf2], []⟩

def emptyLeadBody : LeadBody := ⟨none, none, none, none, none, none, none, none⟩

def dummyDetails : LeadWithDetails := ⟨leadOf2, none, []⟩

def actBody7 : ActivityBody := ⟨some 7, some (JVal.jstr "note"), some (JVal.jstr "s"), none⟩

def actBody999 : ActivityBody := ⟨some 999, some (JVal.jstr "note"), some (JVal.jstr "s"), none⟩

theorem C5_check_order_witness :
    (putLead dbC5 true seUser 999 emptyLeadBody 1).resp = PutLeadResp.notFound
      ∧ (putLead dbC5 true seUser 7 emptyLeadBody 1).resp = PutLeadResp.forbidden
      ∧ (postActivity dbC5 true seUser actBody999 1 1).resp = ActResp.notFound
      ∧ (postActivity dbC5 true seUser actBody7 1 1).resp = ActResp.forbidden
      ∧ (deleteLeadRoute dbC5 true mgrUser 999).resp = DelResp.notFound
      ∧ (deleteLeadRoute dbC5 true seUser 7).resp = DelResp.forbidden :=
  ⟨(C5_check_order dbC5 seUser 999 emptyLeadBody actBody999 1 1
      ⟨none, none, none, none, none, none, none, none⟩ dummyDetails 999).1 rfl rfl,
    (C5_check_order dbC5 seUser 7 emptyLeadBody actBody999 1 1
      ⟨none, none, none, none, none, none, none, none⟩ dummyDetails 999).2.1 rfl rfl rfl
      (by decide),
    (C5_check_order dbC5 seUser 999 emptyLeadBody actBody999 1 1
      ⟨none, none, none, none, none, none, none, none⟩ dummyDetails 999).2.2.1 rfl rfl,
    (C5_check_order dbC5 seUser 7 emptyLeadBody actBody7 1 1
      ⟨none, none, none, none, none, none, none, none⟩ dummyDetails 7).2.2.2.1 rfl rfl rfl
      (by decide),
    (C5_check_order dbC5 mgrUser 999 emptyLeadBody actBody999 1 1
      ⟨none, none, none, none, none, none, none, none⟩ dummyDetails 999).2.2.2.2.1
      (Or.inr rfl) rfl,
    (C5_check_order dbC5 seUser 7 emptyLeadBody actBody999 1 1
      ⟨none, none, none, none, none, none, none, none⟩ dummyDetails 999).2.2.2.2.2 rfl⟩

/-! ### Claim C6: the ownership filter needs role AND a truthy userId -/

/-- C6: in getAllLeads, getStats and getAnalytics the sales_executive ownership
filter fires only when the userId argument is truthy; a sales_executive call
with an absent or zero userId gets the unfiltered global result, and a
non-sales_executive role gets it for any userId. -/
theorem C6_truthy_guard :
    ∀ (db : DB) (uid : Option Int) (nowDay : Nat) (monthOf : Nat → Nat) (nowMonth : Nat),
      (truthyId uid = false →
        getAllLeads db uid (some "sales_executive") = getAllLeads db none none ∧
        getStats db uid (some "sales_executive") nowDay = getStats db none none nowDay ∧
        getAnalytics db uid (some "sales_executive") monthOf nowMonth
          = getAnalytics db none none monthOf nowMonth) ∧
      (∀ role : Option String, role ≠ some "sales_executive" →
        getAllLeads db uid role = getAllLeads db none none ∧
        getStats db uid role nowDay = getStats db none none nowDay ∧
        getAnalytics db uid role monthOf nowMonth
          = getAnalytics db none none monthOf nowMonth) := by
  intro db uid nowDay monthOf nowMonth
  have hrhs : ((none : Option String) == some "sales_executive"
      && truthyId (none : Option Int)) = false := rfl
  constructor
  · intro h
    have hc : ((some "sales_executive" : Option String) == some "sales_executive"
        && truthyId uid) = false := by rw [h, Bool.and_false]
    refine ⟨?_, ?_, ?_⟩
    · unfold getAllLeads
      rw [hc, hrhs]
      rfl
    · unfold getStats
      rw [hc, hrhs]
      rfl
    · unfold getAnalytics
      rw [hc, hrhs]
      rfl
  · intro role h
    have hb : (role == some "sales_executive") = false := by
      simpa using h
    have hc : (role == some "sales_executive" && truthyId uid) = false := by
      rw [hb, Bool.false_and]
    refine ⟨?_, ?_, ?_⟩
    · unfold getAllLeads
      rw [hc, hrhs]
      rfl
    · unfold getStats
      rw [hc, hrhs]
      rfl
    · unfold getAnalytics
      rw [hc, hrhs]
      rfl

theorem C6_truthy_guard_witness :
    getAllLeads db1 (some 0) (some "sales_executive") = getAllLeads db1 none none
      ∧ getStats db1 none (some "sales_executive") 6 = getStats db1 none none 6 :=
  ⟨((C6_truthy_guard db1 (some 0) 6 toDay 0).1 rfl).1,
    ((C6_truthy_guard db1 none 6 toDay 0).1 rfl).2.1⟩

/-! ### Claim C9: stats over an empty lead set -/

/-- C9: when the store holds no leads (and hence, by the referential
integrity that `activities.leadId references leads.id` enforces, no
activities), getStats reports all-zero aggregates and a 7-entry
recentActivity of zero counts, for every caller. -/
theorem C9_empty_stats :
    ∀ (db : DB) (uid : Option Int) (role : Option String) (nowDay : Nat),
      db.leads = [] →
      (∀ a ∈ db.activities, ∃ l ∈ db.leads, l.id = a.leadId) →
      (getStats db uid role nowDay).totalLeads = 0 ∧
      (getStats db uid role nowDay).activeLeads = 0 ∧
      (getStats db uid role nowDay).convertedLeads = 0 ∧
      (getStats db uid role nowDay).totalValue = 0 ∧
      (getStats db uid role nowDay).recentActivity.length = 7 ∧
      (∀ p ∈ (getStats db uid role nowDay).recentActivity, p.2 = 0) := by
  intro db uid role nowDay h1 h2
  have hacts : db.activities = [] := by
    cases ha : db.activities with
    | nil => rfl
    | cons a t =>
      have hm := h2 a (by rw [ha]; exact List.mem_cons_self a t)
      rcases hm with ⟨l, hl, _⟩
      rw [h1] at hl
      exact absurd hl (List.not_mem_nil l)
  refine ⟨?_, ?_, ?_, ?_, ?_, ?_⟩ <;>
    simp [getStats, h1, hacts, last7Days]

def dbOneUser : DB := ⟨[u5], [], []⟩

theorem C9_empty_stats_witness :
    (getStats dbOneUser (some 5) (some "sales_executive") 9).totalLeads = 0 ∧
      (getStats dbOneUser (some 5) (some "sales_executive") 9).activeLeads = 0 ∧
      (getStats dbOneUser (some 5) (some "sales_executive") 9).convertedLeads = 0 ∧
      (getStats dbOneUser (some 5) (some "sales_executive") 9).totalValue = 0 ∧
      (getStats dbOneUser (some 5) (some "sales_executive") 9).recentActivity.length = 7 ∧
      (∀ p ∈ (getStats dbOneUser (some 5) (some "sales_executive") 9).recentActivity, p.2 = 0) :=
  C9_empty_stats dbOneUser (some 5) (some "sales_executive") 9 rfl (by simp [dbOneUser])

/-! ### Claim C7: recentActivity ignores the caller's visibility -/

def se1 : User := ⟨1, "sx", "pw1", "sx@x", "Sx", "sales_executive", 1⟩

def owner2 : User := ⟨2, "ow", "pw2", "ow@x", "Ow", "manager", 2⟩

def leadC7 : Lead := ⟨30, "Other Co", "Pat", "p@x", none, "new", "web", none, 2, 100, 100⟩

def actC7 : Activity := ⟨5, 30, 2, "call", "ping", none, 518400000⟩

def dbC7 : DB := ⟨[se1, owner2], [leadC7], [actC7]⟩

/-- C7 as stated fails: sales_executive 1 owns no leads (totalLeads = 0), yet
the day-6 bucket of recentActivity counts the activity logged on a lead owned
by user 2, so the per-day counts are not restricted to the caller's leads. -/
theorem C7_counterexample :
    (getStats dbC7 (some 1) (some "sales_executive") 6).totalLeads = 0
      ∧ ((getStats dbC7 (some 1) (some "sales_executive") 6).recentActivity.map Prod.snd)
          = [0, 0, 0, 0, 0, 0, 1] :=
  ⟨rfl, rfl⟩

theorem last7Days_chain (nowDay : Nat) (h : 6 ≤ nowDay) :
    List.Chain' (· < ·) (last7Days nowDay) := by
  have h7 : last7Days nowDay
      = [nowDay - 6, nowDay - 5, nowDay - 4, nowDay - 3, nowDay - 2, nowDay - 1, nowDay] := rfl
  rw [h7]
  simp only [List.chain'_cons, List.chain'_singleton, and_true]
  omega

/-- C7 amended: the lead aggregates of getStats are visibility-filtered, but
the recentActivity buckets count ALL activities in the store, whoever owns the
underlying lead; the trailing 7 days each appear exactly once, in chronological
order, with count 0 for empty days. -/
theorem C7_recent_activity_global :
    ∀ (db : DB) (uid : Option Int) (role : Option String) (nowDay : Nat),
      6 ≤ nowDay →
      (getStats db uid role nowDay).recentActivity
          = (last7Days nowDay).map (fun d =>
              (d, (db.activities.filter (fun a => toDay a.createdAt == d)).length)) ∧
      (getStats db uid role nowDay).recentActivity.map Prod.fst = last7Days nowDay ∧
      List.Chain' (· < ·) ((getStats db uid role nowDay).recentActivity.map Prod.fst) := by
  intro db uid role nowDay h
  have h1 : (getStats db uid role nowDay).recentActivity
      = (last7Days nowDay).map (fun d =>
          (d, (db.activities.filter (fun a => toDay a.createdAt == d)).length)) := rfl
  have hmap : (getStats db uid role nowDay).recentActivity.map Prod.fst = last7Days nowDay := by
    rw [h1, List.map_map]
    exact List.map_id _
  refine ⟨h1, hmap, ?_⟩
  rw [hmap]
  exact last7Days_chain nowDay h

theorem C7_recent_activity_global_witness :
    (getStats dbC7 (some 1) (some "sales_executive") 6).recentActivity
        = (last7Days 6).map (fun d =>
            (d, (dbC7.activities.filter (fun a => toDay a.createdAt == d)).length))
      ∧ List.Chain' (· < ·)
          ((getStats dbC7 (some 1) (some "sales_executive") 6).recentActivity.map Prod.fst) :=
  ⟨(C7_recent_activity_global dbC7 (some 1) (some "sales_executive") 6 (by decide)).1,
    (C7_recent_activity_global dbC7 (some 1) (some "sales_executive") 6 (by decide)).2.2⟩

/-! ### Claim C8: the lead_created broadcast payload -/

def ownerB : User := ⟨2, "own", "pwb", "own@x", "Owner", "sales_executive", 3⟩

def dbC8 : DB := ⟨[adminA, ownerB], [], []⟩

def bodyC8 : LeadBody :=
  ⟨some (JVal.jstr "NewCo"), some (JVal.jstr "Ned"), some (JVal.jstr "n@x"),
    none, none, some (JVal.jstr "web"), none, some (JVal.jnum 2)⟩

def leadC8 : Lead := mkLead 41 ⟨"NewCo", "Ned", "n@x", none, none, "web", none, 2⟩ 9

/-- C8 as stated fails: the created row is broadcast through sanitizeLead
without any owner join, so the event payload's owner component is absent even
though the owning user (id 2) exists in the store. -/
theorem C8_counterexample :
    (postLead dbC8 true adminA bodyC8 41 9).event
        = some ⟨"lead_created", EventData.sanLead leadC8 none none⟩
      ∧ findUser dbC8 leadC8.ownerId = some ownerB :=
  ⟨rfl, rfl⟩

/-- C8 amended: for every successful creation the `lead_created` event's data
is the bare created Lead put through sanitizeLead — its owner and activities
components are both absent; no joined owner User object is included. -/
theorem C8_broadcast_bare_lead :
    ∀ (db : DB) (auth : Bool) (caller : User) (body : LeadBody) (newId : Int)
      (now : Nat) (l : Lead),
      (postLead db auth caller body newId now).resp = PostLeadResp.created l →
      (postLead db auth caller body newId now).event
        = some ⟨"lead_created", EventData.sanLead l none none⟩ := by
  intro db auth caller body newId now l h
  unfold postLead at h ⊢
  cases auth with
  | false => simp at h
  | true =>
    simp only [Bool.not_true, Bool.false_eq_true, if_false] at h ⊢
    by_cases hr : (caller.role == "sales_executive") = true
    · simp only [hr, if_true] at h ⊢
      cases hp : parseInsertLead { body with ownerId := some (JVal.jnum caller.id) } with
      | none =>
        rw [hp] at h
        exact absurd h (by simp)
      | some v =>
        rw [hp] at h
        simp only [createLead, PostLeadResp.created.injEq] at h
        subst h
        rfl
    · simp only [Bool.not_eq_true] at hr
      simp only [hr, Bool.false_eq_true, if_false] at h ⊢
      cases hp : parseInsertLead body with
      | none =>
        rw [hp] at h
        exact absurd h (by simp)
      | some v =>
        rw [hp] at h
        simp only [createLead, PostLeadResp.created.injEq] at h
        subst h
        rfl

theorem C8_broadcast_bare_lead_witness :
    (postLead dbC8 true adminA bodyC8 41 9).event
        = some ⟨"lead_created", EventData.sanLead leadC8 none none⟩ :=
  C8_broadcast_bare_lead dbC8 true adminA bodyC8 41 9 leadC8 rfl

/-! ### Claim C4: responses never depend on stored passwords -/

theorem sanitizeDetail_pwMap (g : User → String) (d : LeadWithDetails) :
    sanitizeDetail ⟨d.lead, d.owner.map (pwSet g),
        d.activities.map (fun p => (p.1, p.2.map (pwSet g)))⟩
      = sanitizeDetail d := by
  unfold sanitizeDetail
  simp only [sanitizeUser_pwSet, List.map_map]
  refine congrArg (fun x => SanLeadDetails.mk d.lead (sanitizeUser d.owner) x) ?_
  apply List.map_congr_left
  intro p _
  simp [Function.comp, sanitizeUser_pwSet]

theorem getUsersRoute_pwMap (g : User → String) (db : DB) (auth : Bool) (caller : User) :
    getUsersRoute (pwMap g db) auth caller = getUsersRoute db auth caller := by
  unfold getUsersRoute
  rw [getAllUsers_pwMap, List.map_map]
  rfl

theorem getLeadsRoute_pwMap (g : User → String) (db : DB) (auth : Bool) (caller : User) :
    getLeadsRoute (pwMap g db) auth caller = getLeadsRoute db auth caller := by
  unfold getLeadsRoute
  rw [getAllLeads_pwMap, List.map_map]
  refine congrArg (fun x => if !auth then LeadsResp.unauthorized else LeadsResp.ok x) ?_
  apply List.map_congr_left
  intro r _
  simp [Function.comp, sanitizeRow, sanitizeUser_pwSet]

theorem getLeadRoute_pwMap (g : User → String) (db : DB) (auth : Bool) (caller : User)
    (id : Int) :
    getLeadRoute (pwMap g db) auth caller id = getLeadRoute db auth caller id := by
  unfold getLeadRoute
  cases auth with
  | false => rfl
  | true =>
    simp only [Bool.not_true, Bool.false_eq_true, if_false]
    rw [getLeadById_pwMap]
    cases hf : getLeadById db id with
    | none => rfl
    | some d =>
      by_cases ho : (caller.role == "sales_executive" && d.lead.ownerId != caller.id) = true
      · simp [ho]
      · simp only [Bool.not_eq_true] at ho
        simp [ho, sanitizeDetail_pwMap g d]

theorem updateLead_pwMap (g : User → String) (db : DB) (id : Int) (p : LeadPatch)
    (now : Nat) :
    (updateLead (pwMap g db) id p now).1 = (updateLead db id p now).1 ∧
      (updateLead (pwMap g db) id p now).2 = pwMap g (updateLead db id p now).2 :=
  ⟨rfl, rfl⟩

theorem getStats_pwMap (g : User → String) (db : DB) (uid : Option Int)
    (role : Option String) (nowDay : Nat) :
    getStats (pwMap g db) uid role nowDay = getStats db uid role nowDay := rfl

theorem getAnalytics_pwMap (g : User → String) (db : DB) (uid : Option Int)
    (role : Option String) (monthOf : Nat → Nat) (nowMonth : Nat) :
    getAnalytics (pwMap g db) uid role monthOf nowMonth
      = getAnalytics db uid role monthOf nowMonth := by
  show getAnalytics ⟨db.users.map (pwSet g), db.leads, db.activities⟩ uid role monthOf nowMonth
      = getAnalytics db uid role monthOf nowMonth
  unfold getAnalytics
  simp only [Analytics.mk.injEq]
  refine ⟨trivial, trivial, trivial, trivial, ?_, trivial⟩
  refine congrArg (List.filter _) ?_
  rw [List.map_map]
  exact List.map_congr_left (fun u _ => rfl)

theorem postLead_pwMap (g : User → String) (db : DB) (auth : Bool) (caller : User)
    (body : LeadBody) (newId : Int) (now : Nat) :
    (postLead (pwMap g db) auth caller body newId now).resp
        = (postLead db auth caller body newId now).resp
      ∧ (postLead (pwMap g db) auth caller body newId now).event
        = (postLead db auth caller body newId now).event := by
  unfold postLead
  cases auth with
  | false => exact ⟨rfl, rfl⟩
  | true =>
    by_cases hr : (caller.role == "sales_executive") = true
    · simp only [hr, if_true]
      cases hp : parseInsertLead { body with ownerId := some (JVal.jnum caller.id) } with
      | none => exact ⟨rfl, rfl⟩
      | some v => exact ⟨rfl, rfl⟩
    · simp only [Bool.not_eq_true] at hr
      simp only [hr, Bool.false_eq_true, if_false]
      cases hp : parseInsertLead body with
      | none => exact ⟨rfl, rfl⟩
      | some v => exact ⟨rfl, rfl⟩

theorem deleteLeadRoute_pwMap (g : User → String) (db : DB) (auth : Bool)
    (caller : User) (id : Int) :
    (deleteLeadRoute (pwMap g db) auth caller id).resp
        = (deleteLeadRoute db auth caller id).resp
      ∧ (deleteLeadRoute (pwMap g db) auth caller id).event
        = (deleteLeadRoute db auth caller id).event := by
  unfold deleteLeadRoute
  cases auth with
  | false => exact ⟨rfl, rfl⟩
  | true =>
    simp only [Bool.not_true, Bool.false_eq_true, if_false]
    by_cases hrole : (["admin", "manager"].contains caller.role) = true
    · simp only [hrole, Bool.not_true, Bool.false_eq_true, if_false]
      rw [getLeadById_pwMap]
      cases hf : getLeadById db id with
      | none => exact ⟨rfl, rfl⟩
      | some d => exact ⟨rfl, rfl⟩
    · simp only [Bool.not_eq_true] at hrole
      simp only [hrole, Bool.not_false, if_true]
      exact ⟨by trivial, by trivial⟩

theorem postActivity_pwMap (g : User → String) (db : DB) (auth : Bool) (caller : User)
    (body : ActivityBody) (newId : Int) (now : Nat) :
    (postActivity (pwMap g db) auth caller body newId now).resp
        = (postActivity db auth caller body newId now).resp
      ∧ (postActivity (pwMap g db) auth caller body newId now).event
        = (postActivity db auth caller body newId now).event := by
  unfold postActivity
  cases auth with
  | false => exact ⟨rfl, rfl⟩
  | true =>
    simp only [Bool.not_true, Bool.false_eq_true, if_false]
    cases hb : body.leadId with
    | none => exact ⟨rfl, rfl⟩
    | some lid =>
      dsimp only
      rw [getLeadById_pwMap]
      cases hf : getLeadById db lid with
      | none => exact ⟨rfl, rfl⟩
      | some d =>
        by_cases ho : (caller.role == "sales_executive" && d.lead.ownerId != caller.id) = true
        · simp [ho]
        · simp only [Bool.not_eq_true] at ho
          cases hp : parseInsertActivity body caller.id with
          | none => simp [ho, hp]
          | some v => simp [ho, hp]

/-- Changing only the acting user's password changes neither the response nor
the broadcast of POST /api/activities (the one route that embeds the caller). -/
theorem postActivity_callerPw (g : User → String) (db : DB) (auth : Bool)
    (caller : User) (body : ActivityBody) (newId : Int) (now : Nat) :
    (postActivity db auth (pwSet g caller) body newId now).resp
        = (postActivity db auth caller body newId now).resp
      ∧ (postActivity db auth (pwSet g caller) body newId now).event
        = (postActivity db auth caller body newId now).event :=
  ⟨rfl, rfl⟩

theorem putLead_pwMap (g : User → String) (db : DB) (auth : Bool) (caller : User)
    (id : Int) (body : LeadBody) (now : Nat) :
    (putLead (pwMap g db) auth caller id body now).resp
        = (putLead db auth caller id body now).resp
      ∧ (putLead (pwMap g db) auth caller id body now).event
        = (putLead db auth caller id body now).event := by
  unfold putLead
  cases auth with
  | false => exact ⟨rfl, rfl⟩
  | true =>
    simp only [Bool.not_true, Bool.false_eq_true, if_false]
    cases hp : parseLeadPatch body with
    | none => exact ⟨rfl, rfl⟩
    | some p =>
      dsimp only
      rw [getLeadById_pwMap]
      cases hf : getLeadById db id with
      | none => exact ⟨rfl, rfl⟩
      | some d =>
        by_cases ho : (caller.role == "sales_executive" && d.lead.ownerId != caller.id) = true
        · simp [ho]
        · simp only [Bool.not_eq_true] at ho
          dsimp only
          rw [(updateLead_pwMap g db id p now).2, getLeadById_pwMap]
          cases hf2 : getLeadById (updateLead db id p now).2 id with
          | none =>
            simp [ho]
            exact (updateLead_pwMap g db id p now).1
          | some d2 =>
            simp [ho, sanitizeUser_pwSet, List.map_map]
            exact (updateLead_pwMap g db id p now).1

/-- C4: every modelled HTTP response and broadcast payload is independent of
the stored password credentials: rewriting every user's password (in the store
and on the acting user) leaves the response of each endpoint — including the
nested owner/author objects inside leads and activities — unchanged. -/
theorem C4_password_independent :
    ∀ (g : User → String) (db : DB) (auth : Bool) (caller : User) (id : Int)
      (body : LeadBody) (abody : ActivityBody) (newId : Int) (now nowDay : Nat)
      (monthOf : Nat → Nat) (nowMonth : Nat),
      getUsersRoute (pwMap g db) auth caller = getUsersRoute db auth caller ∧
      getLeadsRoute (pwMap g db) auth caller = getLeadsRoute db auth caller ∧
      getLeadRoute (pwMap g db) auth caller id = getLeadRoute db auth caller id ∧
      (postLead (pwMap g db) auth caller body newId now).resp
          = (postLead db auth caller body newId now).resp ∧
      (postLead (pwMap g db) auth caller body newId now).event
          = (postLead db auth caller body newId now).event ∧
      (putLead (pwMap g db) auth caller id body now).resp
          = (putLead db auth caller id body now).resp ∧
      (putLead (pwMap g db) auth caller id body now).event
          = (putLead db auth caller id body now).event ∧
      (deleteLeadRoute (pwMap g db) auth caller id).resp
          = (deleteLeadRoute db auth caller id).resp ∧
      (deleteLeadRoute (pwMap g db) auth caller id).event
          = (deleteLeadRoute db auth caller id).event ∧
      (postActivity (pwMap g db) auth caller abody newId now).resp
          = (postActivity db auth caller abody newId now).resp ∧
      (postActivity (pwMap g db) auth caller abody newId now).event
          = (postActivity db auth caller abody newId now).event ∧
      (postActivity db auth (pwSet g caller) abody newId now).event
          = (postActivity db auth caller abody newId now).event ∧
      getStatsRoute (pwMap g db) auth caller nowDay = getStatsRoute db auth caller nowDay ∧
      getAnalyticsRoute (pwMap g db) auth caller monthOf nowMonth
          = getAnalyticsRoute db auth caller monthOf nowMonth := by
  intro g db auth caller id body abody newId now nowDay monthOf nowMonth
  refine ⟨getUsersRoute_pwMap g db auth caller,
    getLeadsRoute_pwMap g db auth caller,
    getLeadRoute_pwMap g db auth caller id,
    (postLead_pwMap g db auth caller body newId now).1,
    (postLead_pwMap g db auth caller body newId now).2,
    (putLead_pwMap g db auth caller id body now).1,
    (putLead_pwMap g db auth caller id body now).2,
    (deleteLeadRoute_pwMap g db auth caller id).1,
    (deleteLeadRoute_pwMap g db auth caller id).2,
    (postActivity_pwMap g db auth caller abody newId now).1,
    (postActivity_pwMap g db auth caller abody newId now).2,
    (postActivity_callerPw g db auth caller abody newId now).2,
    ?_, ?_⟩
  · unfold getStatsRoute
    rw [getStats_pwMap]
  · unfold getAnalyticsRoute
    rw [getAnalytics_pwMap]
